import Mathlib

/-!
Verification of the typed column system and query builder of the `libsql`
repository (files `src/sqltypebases.py`, `src/record.py`, `src/view.py`).

The Python code is shallowly embedded:

* Runtime-synthesized column-type classes (`types.new_class` in
  `sqltypebases.py`) are embedded two ways.  `SQLT` is a pure descriptor
  tree recording how a class was derived; attribute access through the
  Python MRO (`_TYPE_HAS_DEFAULT_`, `__TYPE_SQL__`, `_TYPE_BASE_`,
  `issubclass` tests) becomes structural recursion over the descriptor.
  Separately, `TypeCache`/`cached_class_getitem` model the
  `@lru_cache`-decorated `__class_getitem__` methods as an explicit
  memoization table mapping a (base class, parameter) key to the identity of
  the class object created for it, with a counter standing for fresh
  object allocation.
* `DataView` (`view.py`) becomes an explicit state record; its fluent
  methods become state-passing functions.  Methods that can raise are
  embedded in `Except`.
* The repository's `schema` and `sqlexpr` modules are imported by the
  sources but are not part of the four source files; the few facts needed
  about them (`SQLWithParams.append_clause`, `Table.get_parent_table_links`,
  `Database` duplicate checking, expression rendering) are modelled from
  the specification and marked `Modelled from the spec:` at each site.
-/

/-- Python values that can occur as `_TYPE_DEFAULT_VALUE_` (either `None`,
an `int`, or a `str`). -/
inductive PyVal where
  | vNone
  | vInt (n : Int)
  | vStr (s : String)
deriving DecidableEq, Repr

/-- The three `SQLTypeWithType` wrapper classes of `sqltypebases.py`:
`Nullable`, `NotNull` and `PrimaryKey`. -/
inductive Wrapper where
  | nullable
  | notNull
  | primaryKey
deriving DecidableEq, Repr

/-- Descriptor of a concrete SQL column-type class, mirroring how classes are
built in `sqltypebases.py`:

* `fin name typeSqlOpt hasDef defVal` — a statically declared `Final` SQL type
  (such as `Int`), carrying its `__name__`, its own `__TYPE_SQL__` attribute
  (`none` when inherited as `None` from `SQLType`), and its
  `_TYPE_HAS_DEFAULT_` / `_TYPE_DEFAULT_VALUE_` attributes (which
  `SQLType.default` may have mutated before derivation);
* `withLength t l` — `SQLTypeWithOptionalLength.__class_getitem__` on base `t`;
* `withDeci t pr sc` — `DecimalType.__class_getitem__` on base `t`;
* `withValues t vs` — `SQLTypeWithValues.__class_getitem__` on base `t`;
* `wrapped w t` — `SQLTypeWithType.__class_getitem__`, i.e. a class created
  with bases `(W, t)` where `W` is `Nullable`/`NotNull`/`PrimaryKey` and `t`
  is the already-normalized argument type;
* `fk r` — `ForeignTableKey.__class_getitem__` on Record class named `r`,
  a class with bases `(ForeignTableKey, Int)`. -/
inductive SQLT where
  | fin (name : String) (typeSqlOpt : Option String) (hasDef : Bool) (defVal : PyVal)
  | withLength (t : SQLT) (l : Int)
  | withDeci (t : SQLT) (pr sc : Int)
  | withValues (t : SQLT) (vs : List String)
  | wrapped (w : Wrapper) (t : SQLT)
  | fk (r : String)
deriving DecidableEq, Repr

/-- Class `__name__` of a wrapper class. -/
def wrapperName : Wrapper → String
  | .nullable => "Nullable"
  | .notNull => "NotNull"
  | .primaryKey => "PrimaryKey"

/-- `_TYPE_SQL_SUFFIX_` of the wrapper classes (`''`, `' NOT NULL'`,
`' PRIMARY KEY'`). -/
def wrapperSuffix : Wrapper → String
  | .nullable => ""
  | .notNull => " NOT NULL"
  | .primaryKey => " PRIMARY KEY"

/-- `_TYPE_ENSURE_NULLABLE_` of the wrapper classes: `True` only on
`PrimaryKey`. -/
def wrapperEnsureNullable : Wrapper → Bool
  | .primaryKey => true
  | _ => false

/-- A single-quote character, used by `SQLTypeWithValues` rendering
(`"'{v}'"` in the source). -/
def squote : String := String.singleton (Char.ofNat 39)

/-- Python `str.upper()` on ASCII class names (written out character by
character so that it evaluates inside the kernel). -/
def pyUpper (s : String) : String := String.mk (s.data.map Char.toUpper)

/-- Python `str.lower()` on ASCII class names (kernel-reducible). -/
def pyLower (s : String) : String := String.mk (s.data.map Char.toLower)

/-- Python `s.split('.')[-1]`: the suffix after the last dot (the whole
string when it contains no dot), kernel-reducible. -/
def lastDotComponent (s : String) : String :=
  String.mk (((s.data.reverse).takeWhile (fun c => c != '.')).reverse)

/-- Class `__name__` of a derived class, following the name templates used in
each `__class_getitem__` / `new_subclass` call of `sqltypebases.py`. -/
def className : SQLT → String
  | .fin n _ _ _ => n
  | .withLength t l => className t ++ "_len" ++ toString l
  | .withDeci t pr sc => className t ++ "_" ++ toString pr ++ "_" ++ toString sc
  | .withValues t vs => className t ++ "_vals_" ++ String.intercalate "_" vs
  | .wrapped w t => wrapperName w ++ "__" ++ className t
  | .fk r => "FK__" ++ r

/-- The `__TYPE_SQL__` attribute as found by Python attribute lookup on the
class (own or inherited along the MRO).  Derivations that pass an explicit
`__TYPE_SQL__` to `new_subclass` store the string computed at derivation
time from the base's `__type_sql__()`; `DecimalType.__class_getitem__` sets
no `__TYPE_SQL__`, so the attribute is inherited from the base. -/
def typeSqlAttr : SQLT → Option String
  | .fin _ ts _ _ => ts
  | .withLength t l =>
      some (((typeSqlAttr t).getD (pyUpper (className t))) ++ "(" ++ toString l ++ ")")
  | .withDeci t _ _ => typeSqlAttr t
  | .withValues t vs =>
      some (((typeSqlAttr t).getD (pyUpper (className t))) ++ "(" ++
        String.intercalate ", " (vs.map (fun v => squote ++ v ++ squote)) ++ ")")
  | .wrapped w t =>
      some (((typeSqlAttr t).getD (pyUpper (className t))) ++ wrapperSuffix w)
  | .fk _ => some (pyUpper "Int")

/-- `SQLType.__type_sql__`: `cls.__TYPE_SQL__ or cls.__name__.upper()`. -/
def type_sql (t : SQLT) : String :=
  (typeSqlAttr t).getD (pyUpper (className t))

/-- The `_TYPE_HAS_DEFAULT_` attribute found by MRO lookup.  A class created
with bases `(W, t)` looks first in `W` (only `NotNull` sets the attribute, to
`False`), then in `t`'s chain; classes created by the
length/precision/values derivations inherit from their single base;
`FK__R` has bases `(ForeignTableKey, Int)` and finds `SQLType`'s `True`. -/
def has_default_value : SQLT → Bool
  | .fin _ _ hd _ => hd
  | .withLength t _ => has_default_value t
  | .withDeci t _ _ => has_default_value t
  | .withValues t _ => has_default_value t
  | .wrapped .notNull _ => false
  | .wrapped .nullable t => has_default_value t
  | .wrapped .primaryKey t => has_default_value t
  | .fk _ => true

/-- The `_TYPE_DEFAULT_VALUE_` attribute found by MRO lookup (same search
order as `has_default_value`; `NotNull` sets it to `None`). -/
def default_value_attr : SQLT → PyVal
  | .fin _ _ _ dv => dv
  | .withLength t _ => default_value_attr t
  | .withDeci t _ _ => default_value_attr t
  | .withValues t _ => default_value_attr t
  | .wrapped .notNull _ => PyVal.vNone
  | .wrapped .nullable t => default_value_attr t
  | .wrapped .primaryKey t => default_value_attr t
  | .fk _ => PyVal.vNone

/-- `issubclass(t, W)` for a wrapper class `W`: a derived class is a subclass
of `W` exactly when `W` occurs among the wrapper classes on its base-class
chain.  `FK__R` (bases `(ForeignTableKey, Int)`) and plain final types are
subclasses of no wrapper. -/
def isSubclassOfWrapper (w : Wrapper) : SQLT → Bool
  | .fin _ _ _ _ => false
  | .withLength t _ => isSubclassOfWrapper w t
  | .withDeci t _ _ => isSubclassOfWrapper w t
  | .withValues t _ => isSubclassOfWrapper w t
  | .wrapped w' t => if w' = w then true else isSubclassOfWrapper w t
  | .fk _ => false

/-- Declared attribute types accepted by `SQLTypeEnv.actual_type`:

* `opt t` — a `typing.Optional[...]` annotation;
* `sqlt t` — a proper subclass of `SQLType`;
* `recd r` — a proper subclass of `Record` named `r`;
* `aliased n tt` — a type named `n` registered in `SQLTypeEnv.type_aliases`
  with registered target `tt` (the dictionary entry is carried inline; the
  `set_type_alias` assertion guarantees `tt` is a proper `SQLType`
  subclass). -/
inductive DeclTy where
  | opt (t : DeclTy)
  | sqlt (t : SQLT)
  | recd (r : String)
  | aliased (n : String) (tt : SQLT)
deriving DecidableEq, Repr

/-- The mutable class attributes of `SQLTypeEnv` that `actual_type`
consults (`default_not_null`; the alias table is carried on `DeclTy.aliased`
entries). -/
structure TypeEnv where
  default_not_null : Bool := true
deriving DecidableEq, Repr

/-- The final not-null step of `SQLTypeEnv.actual_type` (lines 282-283):
`if ensure_nullable and cls.default_not_null and not issubclass(t, (Nullable,
NotNull)): t = NotNull[t]`.  (`NotNull[t]` on a type that is already a
`SQLType` subclass and not an alias key reduces to creating the class with
bases `(NotNull, t)`.) -/
def ensure_not_null (env : TypeEnv) (ensureNullable : Bool) (t : SQLT) : SQLT :=
  if ensureNullable && env.default_not_null &&
      !(isSubclassOfWrapper .nullable t || isSubclassOfWrapper .notNull t) then
    SQLT.wrapped .notNull t
  else t

/-- `SQLTypeEnv.actual_type` (sqltypebases.py lines 273-284).  An optional
annotation recurses on its inner type with `ensure_nullable=False`; a proper
`Record` subclass returns `ForeignTableKey[t]` immediately (before the
not-null step); otherwise the alias table is consulted and the not-null step
applied. -/
def actual_type (env : TypeEnv) : DeclTy → Bool → SQLT
  | .opt t, _ => actual_type env t false
  | .recd r, _ => SQLT.fk r
  | .sqlt t, en => ensure_not_null env en t
  | .aliased _ tt, en => ensure_not_null env en tt

/-- `SQLTypeWithType.__class_getitem__` (lines 305-316): normalize the
argument with `SQLTypeEnv.actual_type` (passing the wrapper's
`_TYPE_ENSURE_NULLABLE_`), then create the class with bases `(cls, t)` and
`__TYPE_SQL__ = t.__type_sql__() + cls._TYPE_SQL_SUFFIX_`. -/
def withType_getitem (env : TypeEnv) (w : Wrapper) (t : DeclTy) : SQLT :=
  SQLT.wrapped w (actual_type env t (wrapperEnsureNullable w))

/-- `ForeignTableKey.__class_getitem__` (lines 350-359): for a `Record`
subclass named `r`, create class `FK__r` with bases `(ForeignTableKey, Int)`,
`_TYPE_BASE_ = r` and `__TYPE_SQL__ = Int.__type_sql__()`. -/
def foreignTableKey_getitem (r : String) : SQLT :=
  SQLT.fk r

/-- The statically declared `Int` class of `sqltypebases.py`: `__TYPE_SQL__`
inherited as `None`, `_TYPE_HAS_DEFAULT_` inherited as `True`,
`_TYPE_DEFAULT_VALUE_` inherited as `None`. -/
def IntSQLT : SQLT := SQLT.fin "Int" none true PyVal.vNone

/-- The `_TYPE_BASE_` link target recorded on a derived class: either the
wrapped SQL type or, for `ForeignTableKey[R]`, the target `Record` class. -/
inductive LinkTarget where
  | ofType (t : SQLT)
  | ofRecord (r : String)
deriving DecidableEq, Repr

/-- `_TYPE_BASE_` as found by MRO lookup: set by `SQLTypeWithType` and
`ForeignTableKey` derivations, inherited through the single-base
length/precision/values derivations, absent otherwise. -/
def typeBaseOf : SQLT → Option LinkTarget
  | .fin _ _ _ _ => none
  | .withLength t _ => typeBaseOf t
  | .withDeci t _ _ => typeBaseOf t
  | .withValues t _ => typeBaseOf t
  | .wrapped _ t => some (LinkTarget.ofType t)
  | .fk r => some (LinkTarget.ofRecord r)

/-- Keys of the `@lru_cache`-decorated `__class_getitem__` methods.  Each
decorated classmethod caches on `(cls, parameter)`; the constructors keep the
per-method caches apart exactly as the distinct `lru_cache` instances do:

* `optLength base l` — `SQLTypeWithOptionalLength.__class_getitem__`;
* `decimal base pr sc` — `DecimalType.__class_getitem__`;
* `values base vs` — `SQLTypeWithValues.__class_getitem__`;
* `withType w t` — `SQLTypeWithType.__class_getitem__` (`w` is the wrapper
  class, `t` the argument type's name);
* `foreignKey r` — `ForeignTableKey.__class_getitem__`. -/
inductive DeriveKey where
  | optLength (base : String) (l : Int)
  | decimal (base : String) (pr sc : Int)
  | values (base : String) (vs : List String)
  | withType (w : Wrapper) (t : String)
  | foreignKey (r : String)
deriving DecidableEq, Repr

/-- Association-list lookup used by the cache model (first entry with the
given key wins, as in a Python dict that is only ever inserted into at
fresh keys). -/
def cacheLookup {K : Type} [DecidableEq K] : List (K × Nat) → K → Option Nat
  | [], _ => none
  | (k', i) :: rest, k => if k = k' then some i else cacheLookup rest k

/-- Explicit model of one `functools.lru_cache` memoization table.  `entries`
maps each previously seen key to the identity of the class object
`types.new_class` produced for it; `next` is a counter standing for
allocation of a fresh, previously unused object identity.  (The `lru_cache`
eviction bound plays no role for back-to-back derivations: a key that was
just inserted or just hit is the most recently used entry.) -/
structure TypeCache (K : Type) where
  entries : List (K × Nat) := []
  next : Nat := 0
deriving Repr

/-- A memoized `__class_getitem__` call: return the cached class identity on
a hit, otherwise allocate a fresh identity and record it. -/
def cached_class_getitem {K : Type} [DecidableEq K] (c : TypeCache K) (k : K) :
    Nat × TypeCache K :=
  match cacheLookup c.entries k with
  | some i => (i, c)
  | none => (c.next, ⟨(k, c.next) :: c.entries, c.next + 1⟩)

/-- Well-formedness of a cache state: every recorded identity was allocated
below the counter, and no two entries share an identity (each miss allocated
a fresh object). -/
def CacheWF {K : Type} (c : TypeCache K) : Prop :=
  (∀ p ∈ c.entries, p.2 < c.next) ∧ (c.entries.map Prod.snd).Nodup

theorem cacheWF_empty {K : Type} : CacheWF (⟨[], 0⟩ : TypeCache K) := by
  constructor
  · intro p hp; simp at hp
  · simp

theorem cacheLookup_mem {K : Type} [DecidableEq K] {l : List (K × Nat)} {k : K} {i : Nat}
    (h : cacheLookup l k = some i) : (k, i) ∈ l := by
  induction l with
  | nil => simp [cacheLookup] at h
  | cons p rest ih =>
    obtain ⟨k', i'⟩ := p
    by_cases hk : k = k'
    · simp [cacheLookup, hk] at h
      simp [hk, h]
    · simp [cacheLookup, hk] at h
      exact List.mem_cons_of_mem _ (ih h)

theorem nodup_snd_inj {K : Type} {l : List (K × Nat)}
    (hnd : (l.map Prod.snd).Nodup) {a b : K × Nat}
    (ha : a ∈ l) (hb : b ∈ l) (hsnd : a.2 = b.2) : a = b := by
  induction l with
  | nil => simp at ha
  | cons p rest ih =>
    rw [List.map_cons, List.nodup_cons] at hnd
    rcases List.mem_cons.mp ha with rfl | ha'
    · rcases List.mem_cons.mp hb with rfl | hb'
      · rfl
      · have hm : b.2 ∈ rest.map Prod.snd := List.mem_map_of_mem Prod.snd hb'
        rw [← hsnd] at hm
        exact absurd hm hnd.1
    · rcases List.mem_cons.mp hb with rfl | hb'
      · have hm : a.2 ∈ rest.map Prod.snd := List.mem_map_of_mem Prod.snd ha'
        rw [hsnd] at hm
        exact absurd hm hnd.1
      · exact ih hnd.2 ha' hb'

theorem cacheWF_preserved {K : Type} [DecidableEq K] (c : TypeCache K) (k : K)
    (hwf : CacheWF c) : CacheWF (cached_class_getitem c k).2 := by
  unfold cached_class_getitem
  cases h : cacheLookup c.entries k with
  | some i => exact hwf
  | none =>
    constructor
    · intro p hp
      rcases List.mem_cons.mp hp with rfl | hp'
      · exact Nat.lt_succ_self _
      · exact Nat.lt_trans (hwf.1 p hp') (Nat.lt_succ_self _)
    · simp only [List.map_cons, List.nodup_cons]
      refine ⟨?_, hwf.2⟩
      intro hmem
      rcases List.mem_map.mp hmem with ⟨p, hp, hsnd⟩
      exact absurd (hsnd ▸ hwf.1 p hp) (Nat.lt_irrefl _)

/-- A `schema.Column` as constructed by `Record._table` (record.py lines
52-59): name, rendered SQL type string, `not_null` iff the column type is a
subclass of `NotNull`, `is_primary` iff it is a subclass of `PrimaryKey`.
(The `comment` and still-unimplemented `link_column_refs` arguments carry no
behaviour used by the claims and are omitted; the `schema` module itself is
not among the source files.) -/
structure Column where
  name : String
  type_sql : String
  not_null : Bool
  is_primary : Bool
deriving DecidableEq, Repr

/-- A `schema.Table` as constructed by `Record._table`: table name plus the
columns in declaration order. -/
structure Table where
  name : String
  columns : List Column
deriving DecidableEq, Repr

/-- Python falsy-or default used by `Record._tablename` and
`RootRecord._dbname`: `override or prefix + name.split('.')[-1].lower()`
(both `None` and the empty string fall back). -/
def pyNameDefault (override : Option String) (pre : String) (clsname : String) : String :=
  let dflt := pre ++ pyLower (lastDotComponent clsname)
  match override with
  | some s => if s.isEmpty then dflt else s
  | none => dflt

/-- A declared `Record` subclass: class name, the name of its direct base
class, the optional `__tablename__` override, and the public type-hinted
attributes in declaration order (`Record._raw_column_types` keeps exactly
these, in order). -/
structure RecordDecl where
  name : String
  parent : String
  tablenameOverride : Option String := none
  cols : List (String × DeclTy) := []
deriving DecidableEq, Repr

/-- `Record._tablename` (record.py lines 16-20). -/
def tablenameOf (r : RecordDecl) : String :=
  pyNameDefault r.tablenameOverride "t_" r.name

/-- `Record._column_types` (record.py lines 35-42): normalize every declared
attribute type with `SQLTypeEnv.actual_type(..., ensure_nullable=True)`. -/
def column_types (env : TypeEnv) (r : RecordDecl) : List (String × SQLT) :=
  r.cols.map (fun p => (p.1, actual_type env p.2 true))

/-- The `schema.Column` built for one attribute (record.py lines 52-59; the
`st.NotNull` / `st.PrimaryKey` classes tested there are the
`sqltypebases` wrappers). -/
def mkColumn (cn : String) (ct : SQLT) : Column :=
  { name := cn
    type_sql := type_sql ct
    not_null := isSubclassOfWrapper .notNull ct
    is_primary := isSubclassOfWrapper .primaryKey ct }

/-- `Record._table` (record.py lines 45-63). -/
def recordTable (env : TypeEnv) (r : RecordDecl) : Table :=
  { name := tablenameOf r
    columns := (column_types env r).map (fun p => mkColumn p.1 p.2) }

/-- `RootRecord.get_record_classes` (record.py lines 120-126): iterate
`cls.__subclasses__()`, which yields exactly the classes whose direct base
is `cls`. -/
def get_record_classes (classes : List RecordDecl) (rootName : String) : List RecordDecl :=
  classes.filter (fun r => r.parent = rootName)

/-- Transitive subclass relation over the declared hierarchy (used to state
the collection claim; `fuel` bounds the parent-chain walk). -/
def transitiveSubclass (classes : List RecordDecl) : Nat → String → String → Bool
  | 0, _, _ => false
  | fuel + 1, c, anc =>
    match (classes.find? (fun r => r.name == c)).map RecordDecl.parent with
    | none => false
    | some p => p == anc || transitiveSubclass classes fuel p anc

/-- Errors raised while building the schema. -/
inductive SchemaError where
  | duplicateTableName
deriving DecidableEq, Repr

/-- A `schema.Database`: name plus tables. -/
structure SchemaDatabase where
  name : String
  tables : List Table
deriving DecidableEq, Repr

/-- Modelled from the spec: `schema.Database` construction (the `schema`
module is not among the source files) — "fails with a DuplicateTableName
error if two subclasses resolve to the same table name". -/
def schemaDatabase (n : String) (ts : List Table) : Except SchemaError SchemaDatabase :=
  if (ts.map Table.name).Nodup then .ok ⟨n, ts⟩ else .error .duplicateTableName

/-- `RootRecord._db` (record.py lines 128-135): one table per class yielded
by `get_record_classes`, wrapped in a `schema.Database` named by
`_dbname`. -/
def rootDb (env : TypeEnv) (classes : List RecordDecl) (rootName : String)
    (dbnameOverride : Option String) : Except SchemaError SchemaDatabase :=
  schemaDatabase (pyNameDefault dbnameOverride "db_" rootName)
    ((get_record_classes classes rootName).map (recordTable env))

/-- SQL expression nodes handled by the view builder.  The `sqlexpr` module
is not among the source files; per the spec these are column references,
literals, binary comparisons and AND-conjunctions (`a & b`). -/
inductive SqlExpr where
  | col (tbl c : String)
  | litI (n : Int)
  | litS (s : String)
  | bin (op : String) (l r : SqlExpr)
  | conj (l r : SqlExpr)
deriving DecidableEq, Repr

/-- The mutable state of a `DataView` (view.py lines 45-58; field names
mirror the `_`-prefixed attributes set in `__init__`, whose `parent` and
`child` keywords both default to `True`). -/
structure ViewState where
  table : Option Table := none
  colexprs : List SqlExpr := []
  terms : Option SqlExpr := none
  groups : List String := []
  orders : List SqlExpr := []
  limit : Option Int := none
  offset : Option Int := none
  join_parent_tables : Bool := true
  join_child_tables : Bool := true
deriving DecidableEq, Repr

/-- Errors a view method can raise: `RuntimeError('Table is not set.')`
(the spec's TableNotSetError) from `__sqlout__`, and a failed table lookup
in `Database.table`. -/
inductive ViewError where
  | tableNotSet
  | unknownTable
deriving DecidableEq, Repr

/-- One step of `DataView.where` (view.py lines 68-72):
`self._terms = expr if self._terms is None else self._terms & expr`. -/
def where_step (v : ViewState) (e : SqlExpr) : ViewState :=
  { v with terms := some (match v.terms with
      | none => e
      | some t => SqlExpr.conj t e) }

/-- `DataView.where(*exprs)`: fold `where_step` over the arguments.  The
method performs no table check and cannot raise. -/
def view_where (v : ViewState) (es : List SqlExpr) : Except ViewError ViewState :=
  .ok (es.foldl where_step v)

/-- `DataView.column(*colexprs)` (view.py lines 74-76). -/
def view_column (v : ViewState) (es : List SqlExpr) : Except ViewError ViewState :=
  .ok { v with colexprs := v.colexprs ++ es }

/-- `DataView.group(*columns)` (view.py lines 78-81). -/
def view_group (v : ViewState) (gs : List String) : Except ViewError ViewState :=
  .ok { v with groups := v.groups ++ gs }

/-- `DataView.orders(*colexprs)` (view.py lines 83-86). -/
def view_orders (v : ViewState) (os : List SqlExpr) : Except ViewError ViewState :=
  .ok { v with orders := v.orders ++ os }

/-- `DataView.limit(limit)` (view.py lines 88-91). -/
def view_limit (v : ViewState) (n : Option Int) : Except ViewError ViewState :=
  .ok { v with limit := n }

/-- `DataView.offset(offset)` (view.py lines 93-96). -/
def view_offset (v : ViewState) (n : Option Int) : Except ViewError ViewState :=
  .ok { v with offset := n }

/-- A foreign-key link as returned by link discovery: the joined table and
the (local column, remote column) pair. -/
structure Link where
  tbl : Table
  lcol : Column
  rcol : Column
deriving DecidableEq, Repr

/-- The database object a view is bound to.  `tables` backs `Database.table`
lookup; `parentLinksOf` and `childLinksOf` are modelled from the spec:
`Table.get_parent_table_links` / `get_child_table_links` (the `schema`
module is not among the source files) return, per discovered foreign key,
the `(table, (local column, remote column))` pairs. -/
structure SchemaDb where
  tables : List Table
  parentLinksOf : String → List Link
  childLinksOf : String → List Link

/-- `Database.table(name)` lookup by table name. -/
def find_table (db : SchemaDb) (tn : String) : Option Table :=
  db.tables.find? (fun t => t.name == tn)

/-- `DataView.eq(table, **kwargs)` (view.py lines 111-116): resolve the
*argument* table (not the bound one), then `where` one equality term per
keyword.  No check of the view's own bound table is made. -/
def view_eq (db : SchemaDb) (v : ViewState) (tn : String) (kvs : List (String × Int)) :
    Except ViewError ViewState :=
  match find_table db tn with
  | none => .error .unknownTable
  | some tbl =>
    .ok (kvs.foldl
      (fun v' p => where_step v' (SqlExpr.bin "=" (SqlExpr.col tbl.name p.1) (SqlExpr.litI p.2)))
      v)

/-- The slice branch of `DataView.__getitem__` (view.py lines 128-135):
`start` sets the offset; a given `stop` sets `limit = stop - (start or 0)`;
a given `step` then sets the limit directly. -/
def getitem_slice (v : ViewState) (start stop step : Option Int) : ViewState :=
  let v1 := match start with
    | some s => { v with offset := some s }
    | none => v
  let v2 := match stop with
    | some e => { v1 with limit := some (e - start.getD 0) }
    | none => v1
  let v3 := match step with
    | some st => { v2 with limit := some st }
    | none => v2
  v3

/-- Rendered SQL plus ordered parameters, the output sink of `__sqlout__`
(`sqlexpr.SQLWithParams`; the `sqlexpr` module is not among the source
files).  Each appended clause is kept as one string. -/
structure SQLWithParams where
  clauses : List String := []
  params : List PyVal := []
deriving DecidableEq, Repr

/-- Modelled from the spec: `SQLWithParams.append_clause` — appends the
clause keyword with its rendered content, and "a clause with empty
accumulated state is omitted entirely". -/
def append_clause (swp : SQLWithParams) (kw : String) :
    Option (String × List PyVal) → SQLWithParams
  | none => swp
  | some (c, ps) => { clauses := swp.clauses ++ [kw ++ " " ++ c], params := swp.params ++ ps }

/-- Modelled from the spec: rendering of one expression node to SQL text
plus the literal parameters it binds, in left-to-right order. -/
def render_expr : SqlExpr → String × List PyVal
  | .col t c => ("`" ++ t ++ "`.`" ++ c ++ "`", [])
  | .litI n => ("?", [PyVal.vInt n])
  | .litS s => ("?", [PyVal.vStr s])
  | .bin op l r =>
    let lp := render_expr l
    let rp := render_expr r
    (lp.1 ++ " " ++ op ++ " " ++ rp.1, lp.2 ++ rp.2)
  | .conj l r =>
    let lp := render_expr l
    let rp := render_expr r
    (lp.1 ++ " AND " ++ rp.1, lp.2 ++ rp.2)

/-- Backtick-quoted table reference. -/
def renderTableRef (t : Table) : String := "`" ++ t.name ++ "`"

/-- The join-clause keyword chosen in `DataView.__sqlout__` (view.py line
177): `('INNER' if lcol.not_null and rcol.not_null else 'LEFT') + ' JOIN'`. -/
def joinKeyword (lcol rcol : Column) : String :=
  (if lcol.not_null && rcol.not_null then "INNER" else "LEFT") ++ " JOIN"

/-- The joins gathered by `__sqlout__` (view.py lines 166-171): parent links
when `_join_parent_tables`, then child links when `_join_child_tables`. -/
def view_joins (db : SchemaDb) (v : ViewState) (tbl : Table) : List Link :=
  (if v.join_parent_tables then db.parentLinksOf tbl.name else []) ++
  (if v.join_child_tables then db.childLinksOf tbl.name else [])

/-- The rendered ON condition `lcol == rcol` of one join (local column
qualified by the bound table, remote column by the joined table). -/
def render_on (tname : String) (j : Link) : String :=
  "`" ++ tname ++ "`.`" ++ j.lcol.name ++ "` = `" ++ j.tbl.name ++ "`.`" ++ j.rcol.name ++ "`"

/-- The two `append_clause` calls made for one join in the `__sqlout__` loop
(view.py lines 176-178). -/
def join_step (tname : String) (acc : SQLWithParams) (j : Link) : SQLWithParams :=
  let acc1 := append_clause acc (joinKeyword j.lcol j.rcol) (some (renderTableRef j.tbl, []))
  append_clause acc1 "ON" (some (render_on tname j, []))

/-- The SELECT list of `__sqlout__` (view.py line 173): the bound table's
columns, each joined table's columns, then the extra projected
expressions. -/
def select_list (tbl : Table) (joins : List Link) (colexprs : List SqlExpr) : String :=
  String.intercalate ", "
    ((tbl.columns.map (fun c => "`" ++ tbl.name ++ "`.`" ++ c.name ++ "`")) ++
     (joins.flatMap (fun j => j.tbl.columns.map (fun c => "`" ++ j.tbl.name ++ "`.`" ++ c.name ++ "`"))) ++
     (colexprs.map (fun e => (render_expr e).1)))

/-- `DataView.__sqlout__` (view.py lines 159-184).  Raises
`RuntimeError('Table is not set.')` before anything is appended to the sink
when no table is bound (the raised error carries the sink exactly as it was
received, showing no partial output was emitted); otherwise appends the
clauses in the fixed order SELECT, FROM, JOIN/ON pairs, WHERE, GROUP BY,
ORDER BY, LIMIT, OFFSET. -/
def sqlout (db : SchemaDb) (v : ViewState) (swp : SQLWithParams) :
    Except (ViewError × SQLWithParams) SQLWithParams :=
  match v.table with
  | none => .error (.tableNotSet, swp)
  | some tbl =>
    let joins := view_joins db v tbl
    let s1 := append_clause swp "SELECT" (some (select_list tbl joins v.colexprs, []))
    let s2 := append_clause s1 "FROM" (some (renderTableRef tbl, []))
    let s3 := joins.foldl (join_step tbl.name) s2
    let s4 := append_clause s3 "WHERE" ((v.terms).map render_expr)
    let s5 := append_clause s4 "GROUP BY"
      (if v.groups.isEmpty then none
       else some (String.intercalate ", " (v.groups.map (fun g => "`" ++ g ++ "`")), []))
    let s6 := append_clause s5 "ORDER BY"
      (if v.orders.isEmpty then none
       else some (String.intercalate ", " (v.orders.map (fun o => (render_expr o).1)), []))
    let s7 := append_clause s6 "LIMIT" ((v.limit).map (fun n => (toString n, [])))
    let s8 := append_clause s7 "OFFSET" ((v.offset).map (fun n => (toString n, [])))
    .ok s8

/-- `DataView.get_sql_with_params` (view.py lines 189-194): start from the
given sink or a fresh empty one and render into it. -/
def get_sql_with_params (db : SchemaDb) (v : ViewState) (dflt : Option SQLWithParams) :
    Except (ViewError × SQLWithParams) SQLWithParams :=
  sqlout db v (dflt.getD ⟨[], []⟩)

/-- C1: For every generic Column Type base (length-parameterized,
precision/scale decimal, enum-values, or type wrapper) and every parameter
value, deriving with the same (base, parameter) key twice returns the
identical cached class object, and deriving with a different key returns a
distinct class object. -/
theorem derive_memoized_and_distinct (c : TypeCache DeriveKey) (k1 k2 : DeriveKey)
    (hwf : CacheWF c) (hne : k1 ≠ k2) :
    (cached_class_getitem (cached_class_getitem c k1).2 k1).1 = (cached_class_getitem c k1).1 ∧
    (cached_class_getitem (cached_class_getitem c k1).2 k2).1 ≠ (cached_class_getitem c k1).1 := by
  unfold cached_class_getitem
  cases h1 : cacheLookup c.entries k1 with
  | some i =>
    simp only [h1]
    constructor
    · trivial
    · cases h2 : cacheLookup c.entries k2 with
      | some j =>
        simp only [h2]
        intro hij
        have hmem1 := cacheLookup_mem h1
        have hmem2 := cacheLookup_mem h2
        have := nodup_snd_inj hwf.2 hmem2 hmem1 hij
        exact hne (congrArg Prod.fst this).symm
      | none =>
        simp only [h2]
        have := hwf.1 _ (cacheLookup_mem h1)
        exact fun hc => absurd (hc ▸ this) (Nat.lt_irrefl _)
  | none =>
    simp only [h1]
    have hl1 : cacheLookup ((k1, c.next) :: c.entries) k1 = some c.next := by
      simp [cacheLookup]
    have hl2 : cacheLookup ((k1, c.next) :: c.entries) k2 =
        cacheLookup c.entries k2 := by
      simp [cacheLookup, hne.symm]
    simp only [hl1, hl2]
    constructor
    · trivial
    · cases h2 : cacheLookup c.entries k2 with
      | some j =>
        simp only [h2]
        have := hwf.1 _ (cacheLookup_mem h2)
        exact fun hc => absurd (hc ▸ this) (Nat.lt_irrefl _)
      | none =>
        simp only [h2]
        exact Nat.succ_ne_self c.next

theorem derive_memoized_and_distinct_witness :
    CacheWF (⟨[], 0⟩ : TypeCache DeriveKey) ∧
    DeriveKey.optLength "Text" 10 ≠ DeriveKey.optLength "Text" 20 ∧
    ((cached_class_getitem (cached_class_getitem ⟨[], 0⟩ (DeriveKey.optLength "Text" 10)).2
        (DeriveKey.optLength "Text" 10)).1 =
      (cached_class_getitem (⟨[], 0⟩ : TypeCache DeriveKey) (DeriveKey.optLength "Text" 10)).1 ∧
     (cached_class_getitem (cached_class_getitem ⟨[], 0⟩ (DeriveKey.optLength "Text" 10)).2
        (DeriveKey.optLength "Text" 20)).1 ≠
      (cached_class_getitem (⟨[], 0⟩ : TypeCache DeriveKey) (DeriveKey.optLength "Text" 10)).1) :=
  ⟨⟨by simp, by simp⟩, by decide,
    derive_memoized_and_distinct ⟨[], 0⟩ (DeriveKey.optLength "Text" 10)
      (DeriveKey.optLength "Text" 20) ⟨by simp, by simp⟩ (by decide)⟩

/-- C2 counterexample: the claim says every wrapper other than `NotNull` —
`PrimaryKey` included — preserves the base's default-value presence.  With
the default-not-null policy active (its initial state), `Int` has a default
(`_TYPE_HAS_DEFAULT_` is `True`), yet `PrimaryKey[Int]` reports no default,
because the derivation implicitly inserts `NotNull`. -/
theorem primaryKey_default_cex :
    has_default_value IntSQLT = true ∧
    (⟨true⟩ : TypeEnv).default_not_null = true ∧
    has_default_value (withType_getitem ⟨true⟩ .primaryKey (.sqlt IntSQLT)) = false := by
  decide

/-- C2 (amended): `NotNull[B]` reports no default even if `B` had one;
`Nullable[B]` and the length/precision/values parameterizations preserve
`B`'s default presence and value; `ForeignTableKey[R]` (which applies to
`Record` classes, not SQL bases) always reports the inherited `True`;
`PrimaryKey[B]` preserves `B`'s default when `B` is already `NotNull` (or
already `Nullable`, or the policy is off), but clears it otherwise by
implicitly wrapping in `NotNull`. -/
theorem default_value_of_wrappers (env : TypeEnv) (B : SQLT) (l pr sc : Int)
    (vs : List String) (r : String) :
    (has_default_value (withType_getitem env .notNull (.sqlt B)) = false ∧
     default_value_attr (withType_getitem env .notNull (.sqlt B)) = PyVal.vNone) ∧
    (has_default_value (withType_getitem env .nullable (.sqlt B)) = has_default_value B ∧
     default_value_attr (withType_getitem env .nullable (.sqlt B)) = default_value_attr B) ∧
    (has_default_value (SQLT.withLength B l) = has_default_value B ∧
     default_value_attr (SQLT.withLength B l) = default_value_attr B) ∧
    (has_default_value (SQLT.withDeci B pr sc) = has_default_value B ∧
     default_value_attr (SQLT.withDeci B pr sc) = default_value_attr B) ∧
    (has_default_value (SQLT.withValues B vs) = has_default_value B ∧
     default_value_attr (SQLT.withValues B vs) = default_value_attr B) ∧
    (env.default_not_null = true →
     isSubclassOfWrapper .nullable B = false →
     isSubclassOfWrapper .notNull B = false →
     has_default_value (withType_getitem env .primaryKey (.sqlt B)) = false) ∧
    (isSubclassOfWrapper .notNull B = true →
     has_default_value (withType_getitem env .primaryKey (.sqlt B)) = has_default_value B) ∧
    has_default_value (foreignTableKey_getitem r) = true := by
  refine ⟨⟨?_, ?_⟩, ⟨?_, ?_⟩, ⟨rfl, rfl⟩, ⟨rfl, rfl⟩, ⟨rfl, rfl⟩, ?_, ?_, rfl⟩
  · simp [withType_getitem, actual_type, ensure_not_null, wrapperEnsureNullable,
      has_default_value]
  · simp [withType_getitem, actual_type, ensure_not_null, wrapperEnsureNullable,
      default_value_attr]
  · simp [withType_getitem, actual_type, ensure_not_null, wrapperEnsureNullable,
      has_default_value]
  · simp [withType_getitem, actual_type, ensure_not_null, wrapperEnsureNullable,
      default_value_attr]
  · intro hdn hnl hnn
    simp [withType_getitem, actual_type, ensure_not_null, wrapperEnsureNullable,
      hdn, hnl, hnn, has_default_value]
  · intro hnn
    simp [withType_getitem, actual_type, ensure_not_null, wrapperEnsureNullable,
      hnn, has_default_value]

theorem default_value_of_wrappers_witness :
    ((⟨true⟩ : TypeEnv).default_not_null = true ∧
     isSubclassOfWrapper .nullable IntSQLT = false ∧
     isSubclassOfWrapper .notNull IntSQLT = false) ∧
    has_default_value (withType_getitem ⟨true⟩ .primaryKey (.sqlt IntSQLT)) = false ∧
    (has_default_value (withType_getitem ⟨true⟩ .notNull (.sqlt IntSQLT)) = false ∧
     default_value_attr (withType_getitem ⟨true⟩ .notNull (.sqlt IntSQLT)) = PyVal.vNone) :=
  ⟨⟨rfl, rfl, rfl⟩,
    (default_value_of_wrappers ⟨true⟩ IntSQLT 1 2 3 ["x"] "R").2.2.2.2.2.1
      (by decide) (by decide) (by decide),
    (default_value_of_wrappers ⟨true⟩ IntSQLT 1 2 3 ["x"] "R").1⟩

/-- C3: `ForeignTableKey[RecordX]` renders exactly the same SQL type
fragment as the plain `Int` type, and records `RecordX` as its `_TYPE_BASE_`
link target. -/
theorem foreign_key_renders_as_int (r : String) :
    type_sql (foreignTableKey_getitem r) = type_sql IntSQLT ∧
    typeBaseOf (foreignTableKey_getitem r) = some (LinkTarget.ofRecord r) :=
  ⟨rfl, rfl⟩

/-- C4 counterexample: for a declared `Record`-typed attribute under the
active default-not-null policy, `actual_type` returns `ForeignTableKey[t]`
directly — the result is neither `Nullable` nor `NotNull`, yet it is *not*
wrapped in `NotNull` as the claim requires, because the Record branch
returns before the not-null step. -/
theorem actual_type_record_cex :
    (⟨true⟩ : TypeEnv).default_not_null = true ∧
    actual_type ⟨true⟩ (.recd "X") true = SQLT.fk "X" ∧
    isSubclassOfWrapper .nullable (SQLT.fk "X") = false ∧
    isSubclassOfWrapper .notNull (SQLT.fk "X") = false ∧
    actual_type ⟨true⟩ (.recd "X") true ≠ SQLT.wrapped .notNull (SQLT.fk "X") := by
  decide

/-- C4 (amended): an `Optional[X]` annotation normalizes to the
normalization of `X` with the not-null step disabled; a declared `Record`
subclass converts to `ForeignTableKey[t]` and is returned directly, without
the not-null wrap; otherwise, after alias resolution, an active
default-not-null policy wraps a type that is neither `Nullable` nor
`NotNull` in `NotNull`, and leaves already-`Nullable`/`NotNull` types
unchanged. -/
theorem actual_type_normalization (env : TypeEnv) (t : DeclTy) (X : SQLT)
    (n r : String) (en : Bool) (hdn : env.default_not_null = true) :
    actual_type env (.opt t) en = actual_type env t false ∧
    actual_type env (.recd r) en = foreignTableKey_getitem r ∧
    isSubclassOfWrapper .notNull (actual_type env (.recd r) true) = false ∧
    (isSubclassOfWrapper .nullable X = false → isSubclassOfWrapper .notNull X = false →
      actual_type env (.sqlt X) true = SQLT.wrapped .notNull X ∧
      actual_type env (.aliased n X) true = SQLT.wrapped .notNull X) ∧
    (isSubclassOfWrapper .nullable X = true ∨ isSubclassOfWrapper .notNull X = true →
      actual_type env (.sqlt X) true = X ∧ actual_type env (.aliased n X) true = X) ∧
    actual_type env (.sqlt X) false = X := by
  refine ⟨rfl, rfl, rfl, ?_, ?_, rfl⟩
  · intro hnl hnn
    constructor <;> simp [actual_type, ensure_not_null, hdn, hnl, hnn]
  · intro hor
    rcases hor with hnl | hnn
    · constructor <;> simp [actual_type, ensure_not_null, hnl]
    · constructor <;> simp [actual_type, ensure_not_null, hnn]

theorem actual_type_normalization_witness :
    ((⟨true⟩ : TypeEnv).default_not_null = true ∧
     isSubclassOfWrapper .nullable IntSQLT = false ∧
     isSubclassOfWrapper .notNull IntSQLT = false) ∧
    actual_type ⟨true⟩ (.sqlt IntSQLT) true = SQLT.wrapped .notNull IntSQLT ∧
    actual_type ⟨true⟩ (.opt (.sqlt IntSQLT)) true = actual_type ⟨true⟩ (.sqlt IntSQLT) false :=
  ⟨⟨rfl, rfl, rfl⟩,
    ((actual_type_normalization ⟨true⟩ (.sqlt IntSQLT) IntSQLT "int" "R" true
        rfl).2.2.2.1 (by decide) (by decide)).1,
    (actual_type_normalization ⟨true⟩ (.sqlt IntSQLT) IntSQLT "int" "R" true rfl).1⟩

/-- C10: with the default-not-null policy active, deriving `PrimaryKey[T]`
for a type `T` that is neither `Nullable` nor `NotNull` first wraps `T` in
`NotNull`: the result renders as `T`'s SQL followed by
`" NOT NULL PRIMARY KEY"`, is a subclass of `NotNull` (so the table column
built from it reports `not_null`), and has no default value. -/
theorem primary_key_implicit_not_null (env : TypeEnv) (T : SQLT) (cn : String)
    (hdn : env.default_not_null = true)
    (hnl : isSubclassOfWrapper .nullable T = false)
    (hnn : isSubclassOfWrapper .notNull T = false) :
    type_sql (withType_getitem env .primaryKey (.sqlt T)) =
      type_sql T ++ " NOT NULL PRIMARY KEY" ∧
    withType_getitem env .primaryKey (.sqlt T) =
      SQLT.wrapped .primaryKey (SQLT.wrapped .notNull T) ∧
    isSubclassOfWrapper .notNull (withType_getitem env .primaryKey (.sqlt T)) = true ∧
    (mkColumn cn (withType_getitem env .primaryKey (.sqlt T))).not_null = true ∧
    has_default_value (withType_getitem env .primaryKey (.sqlt T)) = false := by
  have hD : withType_getitem env .primaryKey (.sqlt T) =
      SQLT.wrapped .primaryKey (SQLT.wrapped .notNull T) := by
    simp [withType_getitem, actual_type, ensure_not_null, wrapperEnsureNullable,
      hdn, hnl, hnn]
  refine ⟨?_, hD, ?_, ?_, ?_⟩
  · rw [hD]
    show ((typeSqlAttr (SQLT.wrapped .notNull T)).getD
        (pyUpper (className (SQLT.wrapped .notNull T)))) ++ wrapperSuffix .primaryKey =
      type_sql T ++ " NOT NULL PRIMARY KEY"
    show (type_sql T ++ wrapperSuffix .notNull) ++ wrapperSuffix .primaryKey = _
    rw [String.append_assoc]
    rfl
  · rw [hD]; rfl
  · rw [hD]; rfl
  · rw [hD]; rfl

theorem primary_key_implicit_not_null_witness :
    ((⟨true⟩ : TypeEnv).default_not_null = true ∧
     isSubclassOfWrapper .nullable IntSQLT = false ∧
     isSubclassOfWrapper .notNull IntSQLT = false) ∧
    type_sql (withType_getitem ⟨true⟩ .primaryKey (.sqlt IntSQLT)) =
      "INT NOT NULL PRIMARY KEY" ∧
    (mkColumn "id" (withType_getitem ⟨true⟩ .primaryKey (.sqlt IntSQLT))).not_null = true :=
  ⟨⟨rfl, rfl, rfl⟩,
    by
      have h := primary_key_implicit_not_null ⟨true⟩ IntSQLT "id" rfl rfl rfl
      exact h.1.trans (by decide),
    (primary_key_implicit_not_null ⟨true⟩ IntSQLT "id" rfl rfl rfl).2.2.2.1⟩

/-- C6: slice pagination on a freshly bound view (`_limit` and `_offset`
both unset): `view[100:]` gives offset 100 and no limit; `view[100:150]`
gives offset 100, limit 50; `view[100::50]` gives offset 100, limit 50; in
general `start` sets the offset, a given `stop` sets
`limit = stop - (start or 0)`, and a `step` given without `stop` sets the
limit directly. -/
theorem slice_pagination (v : ViewState)
    (hl : v.limit = none) (ho : v.offset = none) :
    ((getitem_slice v (some 100) none none).offset = some 100 ∧
     (getitem_slice v (some 100) none none).limit = none) ∧
    ((getitem_slice v (some 100) (some 150) none).offset = some 100 ∧
     (getitem_slice v (some 100) (some 150) none).limit = some 50) ∧
    ((getitem_slice v (some 100) none (some 50)).offset = some 100 ∧
     (getitem_slice v (some 100) none (some 50)).limit = some 50) ∧
    (∀ s stop step, (getitem_slice v (some s) stop step).offset = some s) ∧
    (∀ s e, (getitem_slice v (some s) (some e) none).limit = some (e - s)) ∧
    (∀ e, (getitem_slice v none (some e) none).limit = some (e - 0)) ∧
    (∀ start st, (getitem_slice v start none (some st)).limit = some st) := by
  refine ⟨⟨rfl, by simp [getitem_slice, hl]⟩, ⟨rfl, rfl⟩, ⟨rfl, rfl⟩, ?_, ?_, ?_, ?_⟩
  · intro s stop step
    cases stop <;> cases step <;> rfl
  · intro s e; rfl
  · intro e; rfl
  · intro start st
    cases start <;> rfl

theorem slice_pagination_witness :
    (({} : ViewState).limit = none ∧ ({} : ViewState).offset = none) ∧
    ((getitem_slice {} (some 100) none none).offset = some 100 ∧
     (getitem_slice {} (some 100) none none).limit = none) :=
  ⟨⟨rfl, rfl⟩, (slice_pagination {} rfl rfl).1⟩

/-- A two-level record hierarchy: `A` is a direct subclass of `Root` and
`B` a direct subclass of `A` (hence a transitive subclass of `Root`). -/
def twoLevelClasses : List RecordDecl :=
  [⟨"A", "Root", none, []⟩, ⟨"B", "A", none, []⟩]

/-- C7 counterexample: `B` is a transitive subclass of the root, yet the
database built from the root holds only `A`'s table — `__subclasses__()`
yields direct subclasses only, so `B` (table name `t_b`) contributes no
table, contrary to the claim. -/
theorem root_db_transitive_cex :
    transitiveSubclass twoLevelClasses 2 "B" "Root" = true ∧
    tablenameOf ⟨"B", "A", none, []⟩ = "t_b" ∧
    rootDb ⟨true⟩ twoLevelClasses "Root" none =
      .ok ⟨"db_root", [⟨"t_a", []⟩]⟩ ∧
    ("t_b" ∈ (["t_a"] : List String)) = False := by
  refine ⟨by decide, by decide, rfl, by simp⟩

/-- C7 (amended): building the database from a root record class collects
exactly the *direct* subclasses of the root (a subclass of a subclass
contributes no table), builds one table per collected class, and fails with
DuplicateTableName exactly when two collected classes resolve to the same
table name. -/
theorem root_db_direct_subclasses (env : TypeEnv) (classes : List RecordDecl)
    (rootName : String) (dbnOv : Option String) :
    (∀ db, rootDb env classes rootName dbnOv = .ok db →
      db.tables = (get_record_classes classes rootName).map (recordTable env) ∧
      db.tables.map Table.name = (get_record_classes classes rootName).map tablenameOf) ∧
    (rootDb env classes rootName dbnOv = .error .duplicateTableName ↔
      ¬ ((get_record_classes classes rootName).map tablenameOf).Nodup) := by
  have hnames : ((get_record_classes classes rootName).map (recordTable env)).map Table.name =
      (get_record_classes classes rootName).map tablenameOf := by
    rw [List.map_map]
    rfl
  constructor
  · intro db hdb
    unfold rootDb schemaDatabase at hdb
    by_cases hnd : (((get_record_classes classes rootName).map (recordTable env)).map
        Table.name).Nodup
    · rw [if_pos hnd] at hdb
      cases hdb
      exact ⟨rfl, hnames⟩
    · rw [if_neg hnd] at hdb
      cases hdb
  · unfold rootDb schemaDatabase
    by_cases hnd : (((get_record_classes classes rootName).map (recordTable env)).map
        Table.name).Nodup
    · rw [if_pos hnd]
      rw [hnames] at hnd
      simp [hnd]
    · rw [if_neg hnd]
      rw [hnames] at hnd
      simp [hnd]

theorem root_db_direct_subclasses_witness :
    rootDb ⟨true⟩ twoLevelClasses "Root" none = .ok ⟨"db_root", [⟨"t_a", []⟩]⟩ ∧
    ((⟨"db_root", [⟨"t_a", []⟩]⟩ : SchemaDatabase).tables =
       (get_record_classes twoLevelClasses "Root").map (recordTable ⟨true⟩) ∧
     (⟨"db_root", [⟨"t_a", []⟩]⟩ : SchemaDatabase).tables.map Table.name =
       (get_record_classes twoLevelClasses "Root").map tablenameOf) :=
  ⟨rfl,
    (root_db_direct_subclasses ⟨true⟩ twoLevelClasses "Root" none).1
      ⟨"db_root", [⟨"t_a", []⟩]⟩ rfl⟩

theorem where_step_table (v : ViewState) (e : SqlExpr) :
    (where_step v e).table = v.table := rfl

theorem foldl_where_step_table {α : Type} (v : ViewState) (f : ViewState → α → ViewState)
    (hf : ∀ v' a, (f v' a).table = v'.table) (xs : List α) :
    (xs.foldl f v).table = v.table := by
  induction xs generalizing v with
  | nil => rfl
  | cons x rest ih => rw [List.foldl_cons, ih, hf]

/-- C8 counterexample: `where` on an unbound view (no table set) does not
fail with TableNotSetError — it silently accumulates the term while the
view stays unbound. -/
theorem unbound_where_cex :
    view_where ⟨none, [], none, [], [], none, none, true, true⟩ [SqlExpr.litI 1] =
      .ok ⟨none, [], some (SqlExpr.litI 1), [], [], none, none, true, true⟩ := rfl

/-- C8 (amended): on an unbound view, every clause-accumulating call —
`where`, `eq` (given a resolvable table argument), `column`, `group`,
`orders`, `limit`, `offset` — succeeds, silently accumulating its state
while the view remains unbound; none of them raises TableNotSetError (only
rendering does). -/
theorem unbound_clause_calls_accumulate (db : SchemaDb) (v : ViewState)
    (e : SqlExpr) (cs : List SqlExpr) (gs : List String) (os : List SqlExpr)
    (n m : Option Int) (tn : String) (tbl : Table) (kvs : List (String × Int))
    (hv : v.table = none) (ht : find_table db tn = some tbl) :
    (view_where v [e] = .ok (where_step v e) ∧ (where_step v e).table = none) ∧
    (view_column v cs = .ok { v with colexprs := v.colexprs ++ cs } ∧
      ({ v with colexprs := v.colexprs ++ cs } : ViewState).table = none) ∧
    (view_group v gs = .ok { v with groups := v.groups ++ gs }) ∧
    (view_orders v os = .ok { v with orders := v.orders ++ os }) ∧
    (view_limit v n = .ok { v with limit := n }) ∧
    (view_offset v m = .ok { v with offset := m }) ∧
    (∃ v', view_eq db v tn kvs = .ok v' ∧ v'.table = none) := by
  refine ⟨⟨rfl, by rw [where_step_table, hv]⟩, ⟨rfl, hv⟩, rfl, rfl, rfl, rfl, ?_⟩
  unfold view_eq
  rw [ht]
  refine ⟨_, rfl, ?_⟩
  rw [foldl_where_step_table v _ (fun v' p => where_step_table v' _) kvs, hv]

theorem unbound_clause_calls_accumulate_witness :
    ((⟨none, [], none, [], [], none, none, true, true⟩ : ViewState).table = none ∧
     find_table ⟨[⟨"t_s", []⟩], fun _ => [], fun _ => []⟩ "t_s" = some ⟨"t_s", []⟩) ∧
    (∃ v', view_eq ⟨[⟨"t_s", []⟩], fun _ => [], fun _ => []⟩
        ⟨none, [], none, [], [], none, none, true, true⟩ "t_s" [("age", 18)] = .ok v' ∧
      v'.table = none) :=
  ⟨⟨rfl, rfl⟩,
    (unbound_clause_calls_accumulate ⟨[⟨"t_s", []⟩], fun _ => [], fun _ => []⟩
      ⟨none, [], none, [], [], none, none, true, true⟩ (SqlExpr.litI 1) [] [] [] none none
      "t_s" ⟨"t_s", []⟩ [("age", 18)] rfl rfl).2.2.2.2.2.2⟩

/-- C9: rendering an unbound view fails with TableNotSetError and emits
nothing into the output sink beforehand: the failure carries the sink
exactly as received (no SQL clause, no parameter was appended), and for
`get_sql_with_params` without a supplied sink the sink at failure is the
fresh empty one.  (`__sqlout__` never mutates the view itself.) -/
theorem render_unbound_no_partial_output (db : SchemaDb) (v : ViewState)
    (swp : SQLWithParams) (h : v.table = none) :
    sqlout db v swp = .error (.tableNotSet, swp) ∧
    get_sql_with_params db v none = .error (.tableNotSet, ⟨[], []⟩) := by
  constructor
  · unfold sqlout
    rw [h]
  · unfold get_sql_with_params sqlout
    rw [h]
    rfl

theorem render_unbound_no_partial_output_witness :
    ((⟨none, [], none, [], [], none, none, true, true⟩ : ViewState).table = none) ∧
    sqlout ⟨[], fun _ => [], fun _ => []⟩ ⟨none, [], none, [], [], none, none, true, true⟩
      ⟨["SELECT x"], [PyVal.vInt 7]⟩ =
      .error (.tableNotSet, ⟨["SELECT x"], [PyVal.vInt 7]⟩) :=
  ⟨rfl,
    (render_unbound_no_partial_output ⟨[], fun _ => [], fun _ => []⟩
      ⟨none, [], none, [], [], none, none, true, true⟩
      ⟨["SELECT x"], [PyVal.vInt 7]⟩ rfl).1⟩

theorem append_clause_mem {swp : SQLWithParams} {x : String} (kw : String)
    (o : Option (String × List PyVal)) (hx : x ∈ swp.clauses) :
    x ∈ (append_clause swp kw o).clauses := by
  cases o with
  | none => exact hx
  | some p =>
    obtain ⟨c, ps⟩ := p
    exact List.mem_append_left _ hx

theorem join_step_mem {acc : SQLWithParams} {x : String} (tname : String) (j : Link)
    (hx : x ∈ acc.clauses) : x ∈ (join_step tname acc j).clauses :=
  append_clause_mem _ _ (append_clause_mem _ _ hx)

theorem foldl_join_step_preserve {x : String} (tname : String) (js : List Link)
    (acc : SQLWithParams) (hx : x ∈ acc.clauses) :
    x ∈ (js.foldl (join_step tname) acc).clauses := by
  induction js generalizing acc with
  | nil => exact hx
  | cons j rest ih => exact ih _ (join_step_mem tname j hx)

theorem foldl_join_step_mem (tname : String) (js : List Link) (acc : SQLWithParams)
    {j : Link} (hj : j ∈ js) :
    (joinKeyword j.lcol j.rcol ++ " " ++ renderTableRef j.tbl) ∈
      (js.foldl (join_step tname) acc).clauses := by
  induction js generalizing acc with
  | nil => simp at hj
  | cons a rest ih =>
    rw [List.foldl_cons]
    rcases List.mem_cons.mp hj with rfl | hj'
    · apply foldl_join_step_preserve
      simp [join_step, append_clause]
    · exact ih _ hj'

/-- C5: for a bound view with join discovery, each discovered link
`(table, (localCol, remoteCol))` contributes a join clause to the rendered
SQL whose keyword is `INNER JOIN` exactly when both columns are not-null,
and `LEFT JOIN` exactly otherwise. -/
theorem join_type_selection (db : SchemaDb) (v : ViewState) (tbl : Table)
    (swp swp' : SQLWithParams) (j : Link)
    (hb : v.table = some tbl) (hj : j ∈ view_joins db v tbl)
    (hout : sqlout db v swp = .ok swp') :
    (joinKeyword j.lcol j.rcol ++ " " ++ renderTableRef j.tbl) ∈ swp'.clauses ∧
    (joinKeyword j.lcol j.rcol = "INNER JOIN" ↔
      (j.lcol.not_null = true ∧ j.rcol.not_null = true)) ∧
    (joinKeyword j.lcol j.rcol = "LEFT JOIN" ↔
      ¬ (j.lcol.not_null = true ∧ j.rcol.not_null = true)) := by
  simp only [sqlout, hb, Except.ok.injEq] at hout
  refine ⟨?_, ?_, ?_⟩
  · rw [← hout]
    apply append_clause_mem
    apply append_clause_mem
    apply append_clause_mem
    apply append_clause_mem
    apply append_clause_mem
    exact foldl_join_step_mem tbl.name _ _ hj
  · cases hl : j.lcol.not_null <;> cases hr : j.rcol.not_null <;>
      simp [joinKeyword, hl, hr]
  · cases hl : j.lcol.not_null <;> cases hr : j.rcol.not_null <;>
      simp [joinKeyword, hl, hr]

def wTblA : Table := ⟨"a", [⟨"id", "INT NOT NULL", true, true⟩]⟩
def wTblB : Table := ⟨"b", [⟨"id", "INT NOT NULL", true, true⟩]⟩
def wLink : Link := ⟨wTblB, ⟨"b_id", "INT NOT NULL", true, false⟩, ⟨"id", "INT NOT NULL", true, true⟩⟩
def wDb : SchemaDb := ⟨[wTblA, wTblB], fun _ => [wLink], fun _ => []⟩
def wView : ViewState := { table := some wTblA }
def wOut : SQLWithParams :=
  ⟨["SELECT `a`.`id`, `b`.`id`", "FROM `a`", "INNER JOIN `b`", "ON `a`.`b_id` = `b`.`id`"], []⟩

theorem join_type_selection_witness :
    (wView.table = some wTblA ∧ wLink ∈ view_joins wDb wView wTblA ∧
     sqlout wDb wView ⟨[], []⟩ = .ok wOut) ∧
    ((joinKeyword wLink.lcol wLink.rcol ++ " " ++ renderTableRef wLink.tbl) ∈ wOut.clauses ∧
     (joinKeyword wLink.lcol wLink.rcol = "INNER JOIN" ↔
       (wLink.lcol.not_null = true ∧ wLink.rcol.not_null = true)) ∧
     (joinKeyword wLink.lcol wLink.rcol = "LEFT JOIN" ↔
       ¬ (wLink.lcol.not_null = true ∧ wLink.rcol.not_null = true))) :=
  ⟨⟨rfl, by decide, rfl⟩,
    join_type_selection wDb wView wTblA ⟨[], []⟩ wOut wLink rfl (by decide) rfl⟩
